import Mathlib

/-!
Verification of the nokhwa-core capture traits (`src/nokhwa-core/src/traits.rs`)
against the natural-language specification.

The file shallowly embeds the concrete default implementations of the source
(`CaptureTrait::compatible_camera_formats`, `OneShot::one_shot`,
`AsyncOneShot::one_shot`) and, for trait methods whose implementations are not
part of the sources, models the behaviour prescribed by the specification.

Rust `fn f(&mut self, ...) -> Result<T, E>` is embedded as
`State → Except E T × State`: the state update persists even when an error is
returned, exactly as a `&mut self` borrow does.
-/

/-- Pixel/container encodings of `FrameFormat` (closed enumeration). -/
inductive FrameFormat
  | MJPEG
  | YUYV
  | NV12
  | GRAY
  | RAWRGB
deriving DecidableEq, Repr

/-- `Resolution { width: u32, height: u32 }`; value equality, usable as a map key. -/
structure Resolution where
  width : Nat
  height : Nat
deriving DecidableEq, Repr

/-- `FrameRate`: numeric frames-per-second, non-negative. -/
abbrev FrameRate := Nat

/-- `CameraFormat { resolution, frame_format, frame_rate }`. -/
structure CameraFormat where
  resolution : Resolution
  format : FrameFormat
  frame_rate : FrameRate
deriving DecidableEq, Repr

/-- `CameraFormat::new(resolution, fourcc, fps)`. -/
def CameraFormat.new (res : Resolution) (fourcc : FrameFormat) (fps : FrameRate) :
    CameraFormat :=
  ⟨res, fourcc, fps⟩

/-- The error variants of `NokhwaError` relevant to the verified claims. -/
inductive NokhwaError
  | UnsupportedOperationError
  | InvalidControlValue
  | StreamStateError
  | OpenDeviceError
  | ReadFrameError
  | StreamShutdownError
  | SetPropertyError
deriving DecidableEq, Repr

/-- `Buffer { raw bytes, resolution, source format }`. -/
structure Buffer where
  raw : List Nat
  resolution : Resolution
  source_format : FrameFormat
deriving DecidableEq, Repr

/-- `Result::is_ok()` for the embedded `Except`. -/
def exOk {α : Type} : Except NokhwaError α → Bool
  | Except.ok _ => true
  | Except.error _ => false

/-! ## `CaptureTrait::compatible_camera_formats` (traits.rs lines 67-78)

The backend queries `compatible_fourcc` (a `Result<Vec<FrameFormat>>`) and
`compatible_list_by_resolution` (a `Result<HashMap<Resolution, Vec<FrameRate>>>`,
embedded as an association list in the backend's iteration order).  The default
implementation is a triple nested loop pushing `CameraFormat::new` values. -/

/-- The two inner loops of `compatible_camera_formats`: for one `fourcc`, push
`CameraFormat::new(resolution, fourcc, fps)` for every `(resolution, fps_list)`
entry and every `fps` of its list, in iteration order. -/
def cross_one (fourcc : FrameFormat) :
    List (Resolution × List FrameRate) → List CameraFormat
  | [] => []
  | (res, fps_list) :: rest =>
      fps_list.map (fun fps => CameraFormat.new res fourcc fps) ++ cross_one fourcc rest

/-- The outer loop of `compatible_camera_formats` over the queried fourccs; the
`?` on `compatible_list_by_resolution(fourcc)` propagates the first error. -/
def formats_loop
    (byRes : FrameFormat → Except NokhwaError (List (Resolution × List FrameRate))) :
    List FrameFormat → Except NokhwaError (List CameraFormat)
  | [] => Except.ok []
  | fourcc :: rest =>
      match byRes fourcc with
      | Except.error e => Except.error e
      | Except.ok pairs =>
          match formats_loop byRes rest with
          | Except.error e => Except.error e
          | Except.ok tail => Except.ok (cross_one fourcc pairs ++ tail)

/-- `CaptureTrait::compatible_camera_formats`, parameterised by the backend's
`compatible_fourcc` result and its `compatible_list_by_resolution` query. -/
def compatible_camera_formats
    (fourccs : Except NokhwaError (List FrameFormat))
    (byRes : FrameFormat → Except NokhwaError (List (Resolution × List FrameRate))) :
    Except NokhwaError (List CameraFormat) :=
  match fourccs with
  | Except.error e => Except.error e
  | Except.ok l => formats_loop byRes l

/-- The pure cross product over a backend whose queries all succeed with the
tables given: the error-free skeleton of `compatible_camera_formats`. -/
def cross_all (tables : FrameFormat → List (Resolution × List FrameRate)) :
    List FrameFormat → List CameraFormat
  | [] => []
  | fourcc :: rest => cross_one fourcc (tables fourcc) ++ cross_all tables rest

/-- The worked example backend of the spec: MJPEG maps resolutions
`(640,480) ↦ [15,30]` and `(1280,720) ↦ [30]`. -/
def exampleByRes : FrameFormat → Except NokhwaError (List (Resolution × List FrameRate))
  | FrameFormat.MJPEG =>
      Except.ok [(Resolution.mk 640 480, [15, 30]), (Resolution.mk 1280 720, [30])]
  | _ => Except.ok []

/-- C4: For a backend whose `compatible_fourcc` is exactly `[MJPEG]` with the
mapping `{(640,480): [15,30], (1280,720): [30]}`, `compatible_camera_formats`
returns, as a set, exactly the three formats `(640,480,MJPEG,15)`,
`(640,480,MJPEG,30)`, `(1280,720,MJPEG,30)`. -/
theorem compatible_camera_formats_example :
    compatible_camera_formats (Except.ok [FrameFormat.MJPEG]) exampleByRes =
      Except.ok
        [CameraFormat.new (Resolution.mk 640 480) FrameFormat.MJPEG 15,
         CameraFormat.new (Resolution.mk 640 480) FrameFormat.MJPEG 30,
         CameraFormat.new (Resolution.mk 1280 720) FrameFormat.MJPEG 30] ∧
    (∀ f : CameraFormat,
      f ∈ [CameraFormat.new (Resolution.mk 640 480) FrameFormat.MJPEG 15,
           CameraFormat.new (Resolution.mk 640 480) FrameFormat.MJPEG 30,
           CameraFormat.new (Resolution.mk 1280 720) FrameFormat.MJPEG 30] ↔
        (f = CameraFormat.new (Resolution.mk 640 480) FrameFormat.MJPEG 15 ∨
         f = CameraFormat.new (Resolution.mk 640 480) FrameFormat.MJPEG 30 ∨
         f = CameraFormat.new (Resolution.mk 1280 720) FrameFormat.MJPEG 30)) := by
  constructor
  · rfl
  · intro f
    simp

/-! ## C3: the cross product is not de-duplicated

The loop body pushes unconditionally; a backend whose `compatible_fourcc`
vector or fps lists contain repeats yields repeated `CameraFormat`s. -/

/-- A backend whose `compatible_fourcc` reports `[MJPEG, MJPEG]`. -/
def dupFourccs : Except NokhwaError (List FrameFormat) :=
  Except.ok [FrameFormat.MJPEG, FrameFormat.MJPEG]

/-- The resolution query of the duplicate-fourcc backend: one entry. -/
def dupByRes : FrameFormat → Except NokhwaError (List (Resolution × List FrameRate)) :=
  fun _ => Except.ok [(Resolution.mk 640 480, [30])]

/-- The single candidate format of the duplicate-fourcc backend. -/
def dupFormat : CameraFormat :=
  CameraFormat.new (Resolution.mk 640 480) FrameFormat.MJPEG 30

/-- C3 counterexample: with `compatible_fourcc = [MJPEG, MJPEG]` and the single
mapping `(640,480) ↦ [30]`, the format `(640,480,MJPEG,30)` appears twice in
the result of `compatible_camera_formats` — the output is not de-duplicated,
so "each combination appears exactly once" fails as stated. -/
theorem compatible_camera_formats_duplicate :
    compatible_camera_formats dupFourccs dupByRes = Except.ok [dupFormat, dupFormat] ∧
    ¬ List.Nodup [dupFormat, dupFormat] := by
  constructor
  · rfl
  · decide

/-- Membership of the inner double loop: a format is produced for `fourcc`
exactly when its format tag is `fourcc`, its resolution is a key of the table,
and its rate is in that key's list. -/
theorem mem_cross_one (fourcc : FrameFormat)
    (pairs : List (Resolution × List FrameRate)) (f : CameraFormat) :
    f ∈ cross_one fourcc pairs ↔
      f.format = fourcc ∧ ∃ p ∈ pairs, f.resolution = p.1 ∧ f.frame_rate ∈ p.2 := by
  induction pairs with
  | nil => simp [cross_one]
  | cons hd tl ih =>
    obtain ⟨res, fps_list⟩ := hd
    constructor
    · intro hmem
      rcases List.mem_append.mp hmem with hl | hr
      · obtain ⟨fps, hfps, hf⟩ := List.mem_map.mp hl
        subst hf
        exact ⟨rfl, ⟨(res, fps_list), List.mem_cons_self _ _, rfl, hfps⟩⟩
      · obtain ⟨hfmt, p, hp, hres, hrate⟩ := ih.mp hr
        exact ⟨hfmt, p, List.mem_cons_of_mem _ hp, hres, hrate⟩
    · rintro ⟨hfmt, p, hp, hres, hrate⟩
      rcases List.mem_cons.mp hp with rfl | hp
      · refine List.mem_append.mpr (Or.inl (List.mem_map.mpr ⟨f.frame_rate, hrate, ?_⟩))
        cases f
        simp only [CameraFormat.new]
        simp_all
      · exact List.mem_append.mpr (Or.inr (ih.mpr ⟨hfmt, p, hp, hres, hrate⟩))

/-- Every format produced for `fourcc` carries the tag `fourcc`. -/
theorem format_of_mem_cross_one {fourcc : FrameFormat}
    {pairs : List (Resolution × List FrameRate)} {f : CameraFormat}
    (h : f ∈ cross_one fourcc pairs) : f.format = fourcc :=
  ((mem_cross_one fourcc pairs f).mp h).1

/-- Every format produced for `fourcc` has a resolution among the table keys. -/
theorem resolution_of_mem_cross_one {fourcc : FrameFormat}
    {pairs : List (Resolution × List FrameRate)} {f : CameraFormat}
    (h : f ∈ cross_one fourcc pairs) : f.resolution ∈ pairs.map Prod.fst := by
  obtain ⟨-, p, hp, hres, -⟩ := (mem_cross_one fourcc pairs f).mp h
  exact List.mem_map.mpr ⟨p, hp, hres.symm⟩

/-- With distinct table keys (a hash map guarantees this) and duplicate-free
fps lists, the inner double loop produces no duplicate formats. -/
theorem nodup_cross_one (fourcc : FrameFormat)
    (pairs : List (Resolution × List FrameRate))
    (hkeys : (pairs.map Prod.fst).Nodup)
    (hfps : ∀ p ∈ pairs, p.2.Nodup) :
    (cross_one fourcc pairs).Nodup := by
  induction pairs with
  | nil => simp [cross_one]
  | cons hd tl ih =>
    obtain ⟨res, fps_list⟩ := hd
    simp only [List.map_cons, List.nodup_cons] at hkeys
    refine List.Nodup.append ?_ (ih hkeys.2 (fun p hp => hfps p (List.mem_cons_of_mem _ hp))) ?_
    · refine List.Nodup.map ?_ (hfps (res, fps_list) (List.mem_cons_self _ _))
      intro a b hab
      simpa [CameraFormat.new] using hab
    · intro f hf hf'
      obtain ⟨fps, -, hfeq⟩ := List.mem_map.mp hf
      have hres : f.resolution = res := by subst hfeq; rfl
      exact hkeys.1 (hres ▸ resolution_of_mem_cross_one hf')

/-- Membership of the full triple loop, over a pure backend table. -/
theorem mem_cross_all (tables : FrameFormat → List (Resolution × List FrameRate))
    (fourccs : List FrameFormat) (f : CameraFormat) :
    f ∈ cross_all tables fourccs ↔
      f.format ∈ fourccs ∧ f ∈ cross_one f.format (tables f.format) := by
  induction fourccs with
  | nil => simp [cross_all]
  | cons fc rest ih =>
    constructor
    · intro hmem
      rcases List.mem_append.mp hmem with hl | hr
      · have hfmt := format_of_mem_cross_one hl
        exact ⟨hfmt ▸ List.mem_cons_self _ _, hfmt ▸ hl⟩
      · obtain ⟨hin, hone⟩ := ih.mp hr
        exact ⟨List.mem_cons_of_mem _ hin, hone⟩
    · rintro ⟨hin, hone⟩
      rcases List.mem_cons.mp hin with heq | hin
      · exact List.mem_append.mpr (Or.inl (heq ▸ hone))
      · exact List.mem_append.mpr (Or.inr (ih.mpr ⟨hin, hone⟩))

/-- With duplicate-free fourccs, keys and fps lists, the triple loop produces
no duplicates at all. -/
theorem nodup_cross_all (tables : FrameFormat → List (Resolution × List FrameRate))
    (fourccs : List FrameFormat)
    (hfcc : fourccs.Nodup)
    (hkeys : ∀ fc, ((tables fc).map Prod.fst).Nodup)
    (hfps : ∀ fc, ∀ p ∈ tables fc, p.2.Nodup) :
    (cross_all tables fourccs).Nodup := by
  induction fourccs with
  | nil => simp [cross_all]
  | cons fc rest ih =>
    simp only [List.nodup_cons] at hfcc
    refine List.Nodup.append (nodup_cross_one fc (tables fc) (hkeys fc) (hfps fc))
      (ih hfcc.2) ?_
    intro f hf hf'
    have h1 := format_of_mem_cross_one hf
    have h2 := ((mem_cross_all tables rest f).mp hf').1
    exact hfcc.1 (h1 ▸ h2)

/-- When every `compatible_list_by_resolution` query succeeds, the loop result
is the pure cross product, entries in query order. -/
theorem formats_loop_ok
    (byRes : FrameFormat → Except NokhwaError (List (Resolution × List FrameRate)))
    (tables : FrameFormat → List (Resolution × List FrameRate))
    (hok : ∀ fc, byRes fc = Except.ok (tables fc))
    (fourccs : List FrameFormat) :
    formats_loop byRes fourccs = Except.ok (cross_all tables fourccs) := by
  induction fourccs with
  | nil => rfl
  | cons fc rest ih => simp [formats_loop, cross_all, hok fc, ih]

/-- C3 (amended): `compatible_camera_formats` returns the flattened cross
product of each queried `FrameFormat` with its resolutions and frame rates, in
query order (never sorted); every combination present in the query results
appears, and each appears exactly once provided the `compatible_fourcc` list
and the per-resolution fps lists are duplicate-free (the code itself performs
no de-duplication). -/
theorem compatible_camera_formats_cross_product
    (fourccs : List FrameFormat)
    (tables : FrameFormat → List (Resolution × List FrameRate))
    (byRes : FrameFormat → Except NokhwaError (List (Resolution × List FrameRate)))
    (hok : ∀ fc, byRes fc = Except.ok (tables fc))
    (hfcc : fourccs.Nodup)
    (hkeys : ∀ fc, ((tables fc).map Prod.fst).Nodup)
    (hfps : ∀ fc, ∀ p ∈ tables fc, p.2.Nodup) :
    compatible_camera_formats (Except.ok fourccs) byRes =
      Except.ok (cross_all tables fourccs) ∧
    (∀ res fc fps, CameraFormat.new res fc fps ∈ cross_all tables fourccs ↔
        fc ∈ fourccs ∧ ∃ p ∈ tables fc, res = p.1 ∧ fps ∈ p.2) ∧
    (cross_all tables fourccs).Nodup := by
  refine ⟨formats_loop_ok byRes tables hok fourccs, ?_, nodup_cross_all tables fourccs hfcc hkeys hfps⟩
  intro res fc fps
  rw [mem_cross_all, mem_cross_one]
  simp [CameraFormat.new]

/-- C3 amended-claim witness: the cross-product characterization evaluated on
the spec's worked example backend. -/
theorem compatible_camera_formats_cross_product_witness :
    compatible_camera_formats (Except.ok [FrameFormat.MJPEG])
        (fun fc => Except.ok (match fc with
          | FrameFormat.MJPEG =>
              [(Resolution.mk 640 480, [15, 30]), (Resolution.mk 1280 720, [30])]
          | _ => [])) =
      Except.ok (cross_all (fun fc => match fc with
          | FrameFormat.MJPEG =>
              [(Resolution.mk 640 480, [15, 30]), (Resolution.mk 1280 720, [30])]
          | _ => []) [FrameFormat.MJPEG]) ∧
    (cross_all (fun fc => match fc with
          | FrameFormat.MJPEG =>
              [(Resolution.mk 640 480, [15, 30]), (Resolution.mk 1280 720, [30])]
          | _ => []) [FrameFormat.MJPEG]).Nodup := by
  have h := compatible_camera_formats_cross_product [FrameFormat.MJPEG]
    (fun fc => match fc with
      | FrameFormat.MJPEG =>
          [(Resolution.mk 640 480, [15, 30]), (Resolution.mk 1280 720, [30])]
      | _ => [])
    (fun fc => Except.ok (match fc with
      | FrameFormat.MJPEG =>
          [(Resolution.mk 640 480, [15, 30]), (Resolution.mk 1280 720, [30])]
      | _ => []))
    (fun fc => rfl) (by decide) (fun fc => by cases fc <;> decide)
    (fun fc => by cases fc <;> decide)
  exact ⟨h.1, h.2.2⟩

/-! ## `OneShot::one_shot` (traits.rs lines 346-355)

A backend implementing `CaptureTrait` is abstracted by its stream-lifecycle
operations.  Each `&mut self` method is a state transformer returning both the
`Result` and the successor state, so state changes made before an early return
persist, as they do through a Rust mutable borrow. -/

/-- The stream-lifecycle slice of a `CaptureTrait` backend. -/
structure Backend where
  State : Type
  is_stream_open : State → Bool
  open_stream : State → Except NokhwaError Unit × State
  frame : State → Except NokhwaError Buffer × State
  stop_stream : State → Except NokhwaError Unit × State

/-- `OneShot::one_shot`: if the stream is open just call `frame`; otherwise
`open_stream()?`, `frame()?`, `stop_stream()?`, then return the frame. -/
def one_shot (b : Backend) (s : b.State) : Except NokhwaError Buffer × b.State :=
  if b.is_stream_open s then
    b.frame s
  else
    match b.open_stream s with
    | (Except.error e, s1) => (Except.error e, s1)
    | (Except.ok _, s1) =>
        match b.frame s1 with
        | (Except.error e, s2) => (Except.error e, s2)
        | (Except.ok f, s2) =>
            match b.stop_stream s2 with
            | (Except.error e, s3) => (Except.error e, s3)
            | (Except.ok _, s3) => (Except.ok f, s3)

/-- The observable backend calls `one_shot` can make. -/
inductive CallEvent
  | openStream
  | frameCall
  | stopStream
deriving DecidableEq, Repr

/-- Instrumentation: the same backend, with every lifecycle call appended to a
trace carried in the state. -/
def Backend.traced (b : Backend) : Backend where
  State := b.State × List CallEvent
  is_stream_open s := b.is_stream_open s.1
  open_stream s :=
    match b.open_stream s.1 with
    | (r, t) => (r, (t, s.2 ++ [CallEvent.openStream]))
  frame s :=
    match b.frame s.1 with
    | (r, t) => (r, (t, s.2 ++ [CallEvent.frameCall]))
  stop_stream s :=
    match b.stop_stream s.1 with
    | (r, t) => (r, (t, s.2 ++ [CallEvent.stopStream]))

/-- C1: On a closed stream, `one_shot` performs exactly
`open_stream → frame → stop_stream`, propagating the first failure and
aborting the remaining steps: an `open_stream` error yields the trace
`[openStream]`; a `frame` error yields `[openStream, frameCall]` (no
`stop_stream` call) and — when the backend's `frame` keeps the stream open —
leaves the stream open; otherwise all three calls happen and `stop_stream`'s
result decides the outcome. -/
theorem one_shot_closed_sequence (b : Backend) (s : b.State)
    (h : b.is_stream_open s = false) :
    (∀ e s1, b.open_stream s = (Except.error e, s1) →
      one_shot b.traced (s, []) = (Except.error e, (s1, [CallEvent.openStream]))) ∧
    (∀ s1 e s2, b.open_stream s = (Except.ok (), s1) →
      b.frame s1 = (Except.error e, s2) →
      one_shot b.traced (s, []) =
        (Except.error e, (s2, [CallEvent.openStream, CallEvent.frameCall]))) ∧
    (∀ s1 f s2 r s3, b.open_stream s = (Except.ok (), s1) →
      b.frame s1 = (Except.ok f, s2) → b.stop_stream s2 = (r, s3) →
      one_shot b.traced (s, []) =
        ((match r with | Except.ok _ => Except.ok f | Except.error e => Except.error e),
         (s3, [CallEvent.openStream, CallEvent.frameCall, CallEvent.stopStream]))) ∧
    (∀ s1 e s2, b.open_stream s = (Except.ok (), s1) →
      b.frame s1 = (Except.error e, s2) → b.is_stream_open s2 = true →
      b.traced.is_stream_open (one_shot b.traced (s, [])).2 = true) := by
  refine ⟨?_, ?_, ?_, ?_⟩
  · intro e s1 hopen
    simp [one_shot, Backend.traced, h, hopen]
  · intro s1 e s2 hopen hframe
    simp [one_shot, Backend.traced, h, hopen, hframe]
  · intro s1 f s2 r s3 hopen hframe hstop
    cases r with
    | ok u => simp [one_shot, Backend.traced, h, hopen, hframe, hstop]
    | error e => simp [one_shot, Backend.traced, h, hopen, hframe, hstop]
  · intro s1 e s2 hopen hframe hopen2
    simp [one_shot, Backend.traced, h, hopen, hframe, hopen2]

/-- C2: `one_shot` on an open stream only calls `frame` (trace `[frameCall]`)
and — given that `frame` keeps the stream open — leaves it open; on a closed
stream the success path runs all three calls and — given that `stop_stream`
success closes the stream — leaves it closed again. -/
theorem one_shot_stream_state (b : Backend) (s : b.State) :
    (b.is_stream_open s = true →
      ∀ r s1, b.frame s = (r, s1) → b.is_stream_open s1 = true →
        one_shot b.traced (s, []) = (r, (s1, [CallEvent.frameCall])) ∧
        b.traced.is_stream_open (one_shot b.traced (s, [])).2 = true) ∧
    (b.is_stream_open s = false →
      ∀ s1 f s2 s3, b.open_stream s = (Except.ok (), s1) →
        b.frame s1 = (Except.ok f, s2) → b.stop_stream s2 = (Except.ok (), s3) →
        b.is_stream_open s3 = false →
        one_shot b.traced (s, []) =
          (Except.ok f,
           (s3, [CallEvent.openStream, CallEvent.frameCall, CallEvent.stopStream])) ∧
        b.traced.is_stream_open (one_shot b.traced (s, [])).2 = false) := by
  constructor
  · intro h r s1 hframe hopen1
    constructor
    · simp [one_shot, Backend.traced, h, hframe]
    · simp [one_shot, Backend.traced, h, hframe, hopen1]
  · intro h s1 f s2 s3 hopen hframe hstop hclosed
    constructor
    · simp [one_shot, Backend.traced, h, hopen, hframe, hstop]
    · simp [one_shot, Backend.traced, h, hopen, hframe, hstop, hclosed]

/-- C10: If, starting from a closed stream, `open_stream` and `frame` succeed
but `stop_stream` fails, `one_shot` returns the `stop_stream` error and the
captured buffer is discarded. -/
theorem one_shot_stop_failure_discards_frame (b : Backend) (s : b.State)
    (h : b.is_stream_open s = false)
    (s1 : b.State) (f : Buffer) (s2 : b.State) (e : NokhwaError) (s3 : b.State)
    (hopen : b.open_stream s = (Except.ok (), s1))
    (hframe : b.frame s1 = (Except.ok f, s2))
    (hstop : b.stop_stream s2 = (Except.error e, s3)) :
    one_shot b s = (Except.error e, s3) := by
  simp [one_shot, h, hopen, hframe, hstop]

/-! ## `AsyncOneShot::one_shot` (traits.rs lines 361-370) -/

/-- The async slice of an `AsyncCaptureTrait` backend, over the same state as
its synchronous `CaptureTrait` super-trait. -/
structure AsyncBackend extends Backend where
  open_stream_async : State → Except NokhwaError Unit × State
  frame_async : State → Except NokhwaError Buffer × State
  stop_stream_async : State → Except NokhwaError Unit × State

/-- `AsyncOneShot::one_shot`: textually the `await`ed image of the synchronous
default implementation, over the `_async` operations. -/
def one_shot_async (b : AsyncBackend) (s : b.State) : Except NokhwaError Buffer × b.State :=
  if b.is_stream_open s then
    b.frame_async s
  else
    match b.open_stream_async s with
    | (Except.error e, s1) => (Except.error e, s1)
    | (Except.ok _, s1) =>
        match b.frame_async s1 with
        | (Except.error e, s2) => (Except.error e, s2)
        | (Except.ok f, s2) =>
            match b.stop_stream_async s2 with
            | (Except.error e, s3) => (Except.error e, s3)
            | (Except.ok _, s3) => (Except.ok f, s3)

/-- `one_shot` on an open stream is a bare `frame` call. -/
theorem one_shot_eq_of_open (b : Backend) (s : b.State)
    (h : b.is_stream_open s = true) : one_shot b s = b.frame s := by
  simp [one_shot, h]

/-- `one_shot` on a closed stream, `open_stream` failing. -/
theorem one_shot_eq_of_open_error (b : Backend) (s : b.State)
    (h : b.is_stream_open s = false) (e : NokhwaError) (s1 : b.State)
    (hO : b.open_stream s = (Except.error e, s1)) :
    one_shot b s = (Except.error e, s1) := by
  simp [one_shot, h, hO]

/-- `one_shot` on a closed stream, `frame` failing. -/
theorem one_shot_eq_of_frame_error (b : Backend) (s : b.State)
    (h : b.is_stream_open s = false) (s1 : b.State)
    (hO : b.open_stream s = (Except.ok (), s1)) (e : NokhwaError) (s2 : b.State)
    (hF : b.frame s1 = (Except.error e, s2)) :
    one_shot b s = (Except.error e, s2) := by
  simp [one_shot, h, hO, hF]

/-- `one_shot` on a closed stream, all calls issued, `stop_stream` deciding. -/
theorem one_shot_eq_of_stop (b : Backend) (s : b.State)
    (h : b.is_stream_open s = false) (s1 : b.State)
    (hO : b.open_stream s = (Except.ok (), s1)) (f : Buffer) (s2 : b.State)
    (hF : b.frame s1 = (Except.ok f, s2)) (r : Except NokhwaError Unit)
    (s3 : b.State) (hS : b.stop_stream s2 = (r, s3)) :
    one_shot b s =
      ((match r with | Except.ok _ => Except.ok f | Except.error e => Except.error e),
       s3) := by
  cases r with
  | ok u => simp [one_shot, h, hO, hF, hS]
  | error e => simp [one_shot, h, hO, hF, hS]

/-- `one_shot_async` on an open stream is a bare `frame_async` call. -/
theorem one_shot_async_eq_of_open (b : AsyncBackend) (s : b.State)
    (h : b.is_stream_open s = true) : one_shot_async b s = b.frame_async s := by
  simp [one_shot_async, h]

/-- `one_shot_async` on a closed stream, `open_stream_async` failing. -/
theorem one_shot_async_eq_of_open_error (b : AsyncBackend) (s : b.State)
    (h : b.is_stream_open s = false) (e : NokhwaError) (s1 : b.State)
    (hO : b.open_stream_async s = (Except.error e, s1)) :
    one_shot_async b s = (Except.error e, s1) := by
  simp [one_shot_async, h, hO]

/-- `one_shot_async` on a closed stream, `frame_async` failing. -/
theorem one_shot_async_eq_of_frame_error (b : AsyncBackend) (s : b.State)
    (h : b.is_stream_open s = false) (s1 : b.State)
    (hO : b.open_stream_async s = (Except.ok (), s1)) (e : NokhwaError) (s2 : b.State)
    (hF : b.frame_async s1 = (Except.error e, s2)) :
    one_shot_async b s = (Except.error e, s2) := by
  simp [one_shot_async, h, hO, hF]

/-- `one_shot_async` on a closed stream, all calls issued. -/
theorem one_shot_async_eq_of_stop (b : AsyncBackend) (s : b.State)
    (h : b.is_stream_open s = false) (s1 : b.State)
    (hO : b.open_stream_async s = (Except.ok (), s1)) (f : Buffer) (s2 : b.State)
    (hF : b.frame_async s1 = (Except.ok f, s2)) (r : Except NokhwaError Unit)
    (s3 : b.State) (hS : b.stop_stream_async s2 = (r, s3)) :
    one_shot_async b s =
      ((match r with | Except.ok _ => Except.ok f | Except.error e => Except.error e),
       s3) := by
  cases r with
  | ok u => simp [one_shot_async, h, hO, hF, hS]
  | error e => simp [one_shot_async, h, hO, hF, hS]

/-- C8: on any backend whose async operations are its synchronous operations
(the async façade wraps the same backend), the async and sync `one_shot`
default implementations are the same function of the backend operations:
identical `Buffer` results and identical successor states, on every state. -/
theorem one_shot_sync_async_agree (b : AsyncBackend)
    (h1 : b.open_stream_async = b.toBackend.open_stream)
    (h2 : b.frame_async = b.toBackend.frame)
    (h3 : b.stop_stream_async = b.toBackend.stop_stream)
    (s : b.State) :
    one_shot_async b s = one_shot b.toBackend s := by
  cases hcond : b.toBackend.is_stream_open s with
  | true =>
    rw [one_shot_async_eq_of_open b s hcond, one_shot_eq_of_open b.toBackend s hcond, h2]
  | false =>
    rcases hO : b.toBackend.open_stream s with ⟨r1, s1⟩
    have hOA : b.open_stream_async s = (r1, s1) := by rw [h1]; exact hO
    cases r1 with
    | error e =>
      rw [one_shot_async_eq_of_open_error b s hcond e s1 hOA,
          one_shot_eq_of_open_error b.toBackend s hcond e s1 hO]
    | ok u =>
      cases u
      rcases hF : b.toBackend.frame s1 with ⟨r2, s2⟩
      have hFA : b.frame_async s1 = (r2, s2) := by rw [h2]; exact hF
      cases r2 with
      | error e =>
        rw [one_shot_async_eq_of_frame_error b s hcond s1 hOA e s2 hFA,
            one_shot_eq_of_frame_error b.toBackend s hcond s1 hO e s2 hF]
      | ok f =>
        rcases hS : b.toBackend.stop_stream s2 with ⟨r3, s3⟩
        have hSA : b.stop_stream_async s2 = (r3, s3) := by rw [h3]; exact hS
        rw [one_shot_async_eq_of_stop b s hcond s1 hOA f s2 hFA r3 s3 hSA,
            one_shot_eq_of_stop b.toBackend s hcond s1 hO f s2 hF r3 s3 hS]
        cases r3 <;> rfl

/-! ### Concrete oracle backends for the witnesses -/

/-- A one-state-flag backend whose three lifecycle calls return the fixed
results given; success of `open_stream` sets the flag, success of
`stop_stream` clears it, `frame` leaves it alone. -/
def mkOracle (openR : Except NokhwaError Unit) (frameR : Except NokhwaError Buffer)
    (stopR : Except NokhwaError Unit) : Backend where
  State := Bool
  is_stream_open s := s
  open_stream s := (openR, if exOk openR then true else s)
  frame s := (frameR, s)
  stop_stream s := (stopR, if exOk stopR then false else s)

/-- A fixed test frame. -/
def sampleBuffer : Buffer :=
  ⟨[0, 1, 2], Resolution.mk 640 480, FrameFormat.MJPEG⟩

/-- C1 witness: on the closed oracle whose `frame` fails, `one_shot` returns
the frame error with trace `[openStream, frameCall]` — no `stop_stream`. -/
theorem one_shot_closed_sequence_witness :
    one_shot (mkOracle (Except.ok ()) (Except.error NokhwaError.ReadFrameError)
        (Except.ok ())).traced (false, []) =
      (Except.error NokhwaError.ReadFrameError,
       (true, [CallEvent.openStream, CallEvent.frameCall])) :=
  (one_shot_closed_sequence
      (mkOracle (Except.ok ()) (Except.error NokhwaError.ReadFrameError) (Except.ok ()))
      false rfl).2.1 true NokhwaError.ReadFrameError true rfl rfl

/-- C2 witness: on the all-succeeding oracle started closed, `one_shot` runs
all three calls and ends closed with the captured buffer. -/
theorem one_shot_stream_state_witness :
    one_shot (mkOracle (Except.ok ()) (Except.ok sampleBuffer) (Except.ok ())).traced
        (false, []) =
      (Except.ok sampleBuffer,
       (false, [CallEvent.openStream, CallEvent.frameCall, CallEvent.stopStream])) :=
  ((one_shot_stream_state
      (mkOracle (Except.ok ()) (Except.ok sampleBuffer) (Except.ok ())) false).2
    rfl true sampleBuffer true false rfl rfl rfl rfl).1

/-- C10 witness: open and frame succeed, stop fails: the error is returned and
the buffer lost. -/
theorem one_shot_stop_failure_witness :
    one_shot (mkOracle (Except.ok ()) (Except.ok sampleBuffer)
        (Except.error NokhwaError.StreamShutdownError)) false =
      (Except.error NokhwaError.StreamShutdownError, true) :=
  one_shot_stop_failure_discards_frame
    (mkOracle (Except.ok ()) (Except.ok sampleBuffer)
      (Except.error NokhwaError.StreamShutdownError))
    false rfl true sampleBuffer true NokhwaError.StreamShutdownError true rfl rfl rfl

/-- The all-succeeding oracle with async operations equal to its sync ones. -/
def asyncOracle : AsyncBackend :=
  { mkOracle (Except.ok ()) (Except.ok sampleBuffer) (Except.ok ()) with
    open_stream_async :=
      (mkOracle (Except.ok ()) (Except.ok sampleBuffer) (Except.ok ())).open_stream
    frame_async :=
      (mkOracle (Except.ok ()) (Except.ok sampleBuffer) (Except.ok ())).frame
    stop_stream_async :=
      (mkOracle (Except.ok ()) (Except.ok sampleBuffer) (Except.ok ())).stop_stream }

/-- C8 witness: sync and async `one_shot` coincide on the concrete oracle. -/
theorem one_shot_sync_async_agree_witness :
    one_shot_async asyncOracle false = one_shot asyncOracle.toBackend false :=
  one_shot_sync_async_agree asyncOracle rfl rfl rfl false

/-! ## Spec-modelled trait methods

The implementations of `frame`, `set_camera_control`, `set_resolution` and the
format cache live in the repository's backend crates, which are not among the
sources; only the `CaptureTrait` declarations and documentation are.  The
definitions below are therefore modelled from the specification, and the
corresponding theorems check the spec's claims against the spec's own
prescribed behaviour. -/

/-- Modelled from the spec: the backend implementations of
`CaptureTrait::frame` are not among the sources.  Per §4.3, `frame` is valid
only when the stream is `Open`; calling it while `Closed` is a usage error
returning an error result (the reject policy, with no auto-open). -/
structure ModelFrameSession where
  isOpen : Bool
  nextBuffer : Buffer
deriving DecidableEq, Repr

/-- The modelled `frame`: a buffer when open, `StreamStateError` when closed. -/
def ModelFrameSession.frame (s : ModelFrameSession) :
    Except NokhwaError Buffer × ModelFrameSession :=
  if s.isOpen then (Except.ok s.nextBuffer, s)
  else (Except.error NokhwaError.StreamStateError, s)

/-- C5: `frame` called while the stream is `Closed` never returns a successful
`Buffer` — under the modelled reject policy it returns an error result. -/
theorem frame_closed_is_error (s : ModelFrameSession) (h : s.isOpen = false) :
    s.frame = (Except.error NokhwaError.StreamStateError, s) ∧
    ∀ f : Buffer, (s.frame).1 ≠ Except.ok f := by
  constructor
  · simp [ModelFrameSession.frame, h]
  · intro f
    simp [ModelFrameSession.frame, h]

/-- C5 witness: a concrete closed session rejects the frame request. -/
theorem frame_closed_is_error_witness :
    (ModelFrameSession.mk false sampleBuffer).frame =
      (Except.error NokhwaError.StreamStateError,
       ModelFrameSession.mk false sampleBuffer) :=
  (frame_closed_is_error (ModelFrameSession.mk false sampleBuffer) rfl).1

/-- `CameraControl { min, max, step, current, ... }` (integer-valued slice). -/
structure CameraControl where
  minimum : Int
  maximum : Int
  step : Int
  current : Int
deriving DecidableEq, Repr

/-- Modelled from the spec: validation of a `ControlValueSetter` against the
control's reported bounds — `min <= v <= max` and `(v - min) % step == 0`. -/
def valid_control_value (c : CameraControl) (v : Int) : Bool :=
  decide (c.minimum ≤ v) && decide (v ≤ c.maximum) &&
    decide ((v - c.minimum) % c.step = 0)

/-- Modelled from the spec: the backend implementations of
`CaptureTrait::set_camera_control` are not among the sources.  Per §4.3/§7, a
session validates the submitted value first and only a valid value reaches the
backend; `backendCalls` counts the hardware interactions made so far. -/
structure ModelControlSession where
  control : CameraControl
  backendCalls : Nat
deriving DecidableEq, Repr

/-- The modelled `set_camera_control`: reject invalid values with
`InvalidControlValue` before any backend call; forward valid ones. -/
def ModelControlSession.set_camera_control (s : ModelControlSession) (v : Int) :
    Except NokhwaError Unit × ModelControlSession :=
  if valid_control_value s.control v then
    (Except.ok (),
     { s with control := { s.control with current := v },
              backendCalls := s.backendCalls + 1 })
  else
    (Except.error NokhwaError.InvalidControlValue, s)

/-- C6: a `ControlValueSetter` whose value lies outside `[min, max]` or
violates `step` is rejected with `InvalidControlValue` and the session is
returned unchanged — in particular no backend call is made. -/
theorem set_camera_control_rejects_invalid (s : ModelControlSession) (v : Int)
    (h : v < s.control.minimum ∨ s.control.maximum < v ∨
      (v - s.control.minimum) % s.control.step ≠ 0) :
    s.set_camera_control v = (Except.error NokhwaError.InvalidControlValue, s) ∧
    (s.set_camera_control v).2.backendCalls = s.backendCalls := by
  have hv : valid_control_value s.control v = false := by
    simp only [valid_control_value, Bool.and_eq_false_iff, decide_eq_false_iff_not, not_le]
    rcases h with h | h | h
    · left; left; exact h
    · left; right; exact h
    · right; exact h
  constructor
  · simp [ModelControlSession.set_camera_control, hv]
  · simp [ModelControlSession.set_camera_control, hv]

/-- C6 witness: value 11 against bounds `[0, 10]` with step 1 is rejected. -/
theorem set_camera_control_rejects_invalid_witness :
    (ModelControlSession.mk (CameraControl.mk 0 10 1 5) 0).set_camera_control 11 =
      (Except.error NokhwaError.InvalidControlValue,
       ModelControlSession.mk (CameraControl.mk 0 10 1 5) 0) :=
  (set_camera_control_rejects_invalid (ModelControlSession.mk (CameraControl.mk 0 10 1 5) 0)
    11 (Or.inr (Or.inl (by decide)))).1

/-- Modelled from the spec: the device side of a `set_resolution` request —
whether teardown succeeds, which resolution (if any) the hardware acknowledges
for a request, and whether reopening succeeds. -/
structure ResDevice where
  stop_ok : Bool
  apply_ack : Resolution → Option Resolution
  reopen_ok : Bool

/-- Modelled from the spec: a session carrying stream state, the cached
format, and its device, for `CaptureTrait::set_resolution` (whose backend
implementations are not among the sources). -/
structure ModelResSession where
  streamOpen : Bool
  fmt : CameraFormat
  dev : ResDevice

/-- Modelled from the spec: `set_resolution` per §4.3 — if `Closed`, apply
directly and cache the acknowledged value; if `Open`, run
stop → apply → reopen, and any failure leaves the session `Closed`. -/
def ModelResSession.set_resolution (s : ModelResSession) (new_res : Resolution) :
    Except NokhwaError Unit × ModelResSession :=
  if s.streamOpen then
    if s.dev.stop_ok then
      match s.dev.apply_ack new_res with
      | some ack =>
          if s.dev.reopen_ok then
            (Except.ok (),
             { s with streamOpen := true, fmt := { s.fmt with resolution := ack } })
          else
            (Except.error NokhwaError.OpenDeviceError,
             { s with streamOpen := false, fmt := { s.fmt with resolution := ack } })
      | none =>
          (Except.error NokhwaError.SetPropertyError, { s with streamOpen := false })
    else
      (Except.error NokhwaError.StreamShutdownError, { s with streamOpen := false })
  else
    match s.dev.apply_ack new_res with
    | some ack =>
        (Except.ok (), { s with fmt := { s.fmt with resolution := ack } })
    | none => (Except.error NokhwaError.SetPropertyError, s)

/-- C7: after `set_resolution` on an `Open` session, the stream is `Open`
exactly when the call succeeded and `Closed` exactly when it failed — the
stream flag equals the success of the result, so no third state exists. -/
theorem set_resolution_open_result_state (s : ModelResSession) (new_res : Resolution)
    (h : s.streamOpen = true) :
    ∀ r s1, s.set_resolution new_res = (r, s1) → s1.streamOpen = exOk r := by
  intro r s1 hcall
  by_cases hstop : s.dev.stop_ok
  · cases hack : s.dev.apply_ack new_res with
    | some ack =>
      by_cases hre : s.dev.reopen_ok
      · simp [ModelResSession.set_resolution, h, hstop, hack, hre] at hcall
        rw [← hcall.1, ← hcall.2]
        rfl
      · simp [ModelResSession.set_resolution, h, hstop, hack, hre] at hcall
        rw [← hcall.1, ← hcall.2]
        rfl
    | none =>
      simp [ModelResSession.set_resolution, h, hstop, hack] at hcall
      rw [← hcall.1, ← hcall.2]
      rfl
  · simp [ModelResSession.set_resolution, h, hstop] at hcall
    rw [← hcall.1, ← hcall.2]
    rfl

/-- A concrete device whose reopen fails. -/
def reopenFailDevice : ResDevice :=
  ResDevice.mk true (fun r => some r) false

/-- C7 witness: on an open session whose device fails to reopen, the failed
`set_resolution` leaves the stream closed, matching the failed result. -/
theorem set_resolution_open_result_state_witness :
    ((ModelResSession.mk true
        (CameraFormat.new (Resolution.mk 640 480) FrameFormat.MJPEG 15)
        reopenFailDevice).set_resolution (Resolution.mk 1280 720)).2.streamOpen =
      exOk ((ModelResSession.mk true
        (CameraFormat.new (Resolution.mk 640 480) FrameFormat.MJPEG 15)
        reopenFailDevice).set_resolution (Resolution.mk 1280 720)).1 :=
  set_resolution_open_result_state
    (ModelResSession.mk true
      (CameraFormat.new (Resolution.mk 640 480) FrameFormat.MJPEG 15)
      reopenFailDevice)
    (Resolution.mk 1280 720) rfl _ _ rfl

/-- Modelled from the spec: the hardware acknowledgment — the format the
device actually applies for a requested one, which need not equal the
request (§4.1: "callers must not assume success implies the exact requested
value was applied"). -/
structure AckDevice where
  ack_format : CameraFormat → CameraFormat

/-- Modelled from the spec: a session for the format cache of
`set_camera_format` / `set_resolution` / `set_frame_rate` /
`set_frame_format` (whose backend implementations are not among the sources),
with `lastAcked` recording the last value the backend acknowledged. -/
structure ModelCacheSession where
  dev : AckDevice
  cached : Option CameraFormat
  lastAcked : Option CameraFormat

/-- Modelled from the spec: `set_camera_format` applies the request, and the
cache is refreshed from the backend's acknowledgment before returning. -/
def ModelCacheSession.set_camera_format (s : ModelCacheSession)
    (new_fmt : CameraFormat) : Except NokhwaError Unit × ModelCacheSession :=
  let ack := s.dev.ack_format new_fmt
  (Except.ok (), { s with cached := some ack, lastAcked := some ack })

/-- Modelled from the spec: `set_resolution` is a format change keeping the
other cached fields; without a cached format there is nothing to update. -/
def ModelCacheSession.set_resolution (s : ModelCacheSession)
    (new_res : Resolution) : Except NokhwaError Unit × ModelCacheSession :=
  match s.cached with
  | some fmt => s.set_camera_format { fmt with resolution := new_res }
  | none => (Except.error NokhwaError.SetPropertyError, s)

/-- Modelled from the spec: `set_frame_rate`, analogous to `set_resolution`. -/
def ModelCacheSession.set_frame_rate (s : ModelCacheSession)
    (new_fps : FrameRate) : Except NokhwaError Unit × ModelCacheSession :=
  match s.cached with
  | some fmt => s.set_camera_format { fmt with frame_rate := new_fps }
  | none => (Except.error NokhwaError.SetPropertyError, s)

/-- Modelled from the spec: `set_frame_format`, analogous to `set_resolution`. -/
def ModelCacheSession.set_frame_format (s : ModelCacheSession)
    (new_ff : FrameFormat) : Except NokhwaError Unit × ModelCacheSession :=
  match s.cached with
  | some fmt => s.set_camera_format { fmt with format := new_ff }
  | none => (Except.error NokhwaError.SetPropertyError, s)

/-- C9: starting from a session whose cache holds the last acknowledged value,
every mutating call leaves the cache equal to the last value the backend
acknowledged — and `set_camera_format` caches the acknowledged value, not the
requested one. -/
theorem cache_reflects_acknowledgment (s : ModelCacheSession)
    (h : s.cached = s.lastAcked) (new_fmt : CameraFormat) (new_res : Resolution)
    (new_fps : FrameRate) (new_ff : FrameFormat) :
    ((s.set_camera_format new_fmt).2.cached =
        (s.set_camera_format new_fmt).2.lastAcked ∧
      (s.set_camera_format new_fmt).2.cached = some (s.dev.ack_format new_fmt)) ∧
    (s.set_resolution new_res).2.cached = (s.set_resolution new_res).2.lastAcked ∧
    (s.set_frame_rate new_fps).2.cached = (s.set_frame_rate new_fps).2.lastAcked ∧
    (s.set_frame_format new_ff).2.cached =
      (s.set_frame_format new_ff).2.lastAcked := by
  refine ⟨⟨rfl, rfl⟩, ?_, ?_, ?_⟩
  · cases hc : s.cached with
    | some fmt => simp [ModelCacheSession.set_resolution, hc, ModelCacheSession.set_camera_format]
    | none => simp [ModelCacheSession.set_resolution, hc, ← h]
  · cases hc : s.cached with
    | some fmt => simp [ModelCacheSession.set_frame_rate, hc, ModelCacheSession.set_camera_format]
    | none => simp [ModelCacheSession.set_frame_rate, hc, ← h]
  · cases hc : s.cached with
    | some fmt => simp [ModelCacheSession.set_frame_format, hc, ModelCacheSession.set_camera_format]
    | none => simp [ModelCacheSession.set_frame_format, hc, ← h]

/-- A device that clamps every requested frame rate to at most 30 fps: its
acknowledgment can differ from the request. -/
def clampDevice : AckDevice :=
  AckDevice.mk (fun fmt => { fmt with frame_rate := min fmt.frame_rate 30 })

/-- C9 witness: on the clamping device, after requesting 60 fps the cache
holds the acknowledged 30 fps value, equal to the last acknowledgment. -/
theorem cache_reflects_acknowledgment_witness :
    ((ModelCacheSession.mk clampDevice none none).set_camera_format
        (CameraFormat.new (Resolution.mk 640 480) FrameFormat.MJPEG 60)).2.cached =
      some (clampDevice.ack_format
        (CameraFormat.new (Resolution.mk 640 480) FrameFormat.MJPEG 60)) :=
  ((cache_reflects_acknowledgment (ModelCacheSession.mk clampDevice none none) rfl
    (CameraFormat.new (Resolution.mk 640 480) FrameFormat.MJPEG 60)
    (Resolution.mk 640 480) 15 FrameFormat.MJPEG).1).2
